import Mathlib

/-!
Verification of the domain-parkour configuration-resolution pipeline and the
footer-rendering fragments, shallowly embedded from the JavaScript sources:
the worker entry (getDomainConfig / getConfig), the shared footer component
(templates/components.js: renderFooter) and the per-mode footer blocks of the
parking, landing and coming-soon templates.

Modelling conventions:
- JavaScript values reaching the configuration record are modelled by `JVal`
  (strings, booleans, null); a missing object property is `Option.none`.
  The structured fields `features`, `socialLinks` and `links` are omitted from
  the modelled record: no claim mentions them and they flow verbatim from the
  base record into the final record.
- The environment is a flat `String → Option String` table plus explicit
  outcomes for the effectful sources: the KV binding (present / get results /
  fault), the JSON parse of a config blob, and the local dev config file.
- JavaScript `a || b` is `jor` (first operand when truthy, second otherwise);
  truthiness of strings is non-emptiness, of null false, of booleans identity.
- `new Date(s)` is modelled for strict ISO `YYYY-MM-DD` inputs (the format the
  repository documents); every other string is an invalid date, which the code
  turns into the `NaN` renderings.  `Date.now()` is an explicit
  `nowMs : Int` parameter (epoch milliseconds).
-/

namespace DomainParkour

/-- Model of a JavaScript value stored in a configuration record. -/
inductive JVal where
  | str (s : String)
  | bool (b : Bool)
  | jnull
deriving Repr, DecidableEq

/-- JavaScript truthiness of an optional property value: a missing property
(undefined) and null are falsy, a string is truthy iff non-empty, a boolean is
itself. -/
def truthy : Option JVal → Bool
  | none => false
  | some (JVal.str s) => !(s = "")
  | some (JVal.bool b) => b
  | some JVal.jnull => false

/-- JavaScript `a || b`: the first operand when truthy, otherwise the second. -/
def jor (a b : Option JVal) : Option JVal :=
  if truthy a then a else b

/-- Template-literal stringification of a JavaScript value. -/
def jsDisplay : JVal → String
  | JVal.str s => s
  | JVal.bool b => if b then "true" else "false"
  | JVal.jnull => "null"

/-- Template-literal stringification of an optional value (undefined prints as
the string undefined). -/
def jsDisplayOpt : Option JVal → String
  | some v => jsDisplay v
  | none => "undefined"

/-- The configuration record (the scalar and boolean fields; the structured
fields features / socialLinks / links are omitted, see the file header).
A field holds `none` when the underlying object has no such property. -/
structure Rec where
  domain : Option JVal := none
  domainTitle : Option JVal := none
  mode : Option JVal := none
  title : Option JVal := none
  description : Option JVal := none
  registrationDate : Option JVal := none
  salePrice : Option JVal := none
  contactEmail : Option JVal := none
  accentColor : Option JVal := none
  launchDate : Option JVal := none
  tagline : Option JVal := none
  subtitle : Option JVal := none
  footerText : Option JVal := none
  domainAgeYears : Option JVal := none
  domainRegistration : Option JVal := none
  domainExtension : Option JVal := none
  showCredit : Option JVal := none
deriving Repr, DecidableEq

/-- The local dev config file contents (config.dev.local.example.json): either
the array-of-themes format or the old single-object format. `none` at the use
site models a missing or invalid file. -/
inductive DevFile where
  | arr (themes : List Rec)
  | obj (single : Rec)
deriving Repr

/-- The request environment: scalar environment variables, the KV binding
(DOMAIN_CONFIGS) with its get results and a fault flag (a thrown lookup error,
caught by the code), the JSON parser outcome for config blobs, and the local
dev config file. -/
structure Env where
  vars : String → Option String
  kvBound : Bool
  kvError : Bool
  kvGet : String → Option Rec
  parseConfig : String → Option Rec
  devFile : Option DevFile

/-- Environment-variable lookup lifted to a JavaScript value (environment
variables are strings). -/
def envV (env : Env) (key : String) : Option JVal :=
  (env.vars key).map JVal.str

/-- One character of the hostname-to-environment-key normalisation: `.` and
`-` become `_`, letters are uppercased. -/
def envKeyChar (c : Char) : Char :=
  if c = '.' ∨ c = '-' then '_' else c.toUpper

/-- The per-domain environment prefix: the source replaces every dot and every
hyphen of the hostname with an underscore and uppercases the result; both
replacements and ASCII uppercasing are per-character, so the composite is the
character map `envKeyChar`. (Source name: envPrefix.) -/
def envPrefixOf (hostname : String) : String :=
  String.mk (hostname.toList.map envKeyChar)

/-- The spread `\x7b domain: hostname, ...config \x7d`: every property of the
source record wins over the hostname seed, so only a record with no `domain`
property receives the hostname. -/
def seedDomain (hostname : String) (c : Rec) : Rec :=
  { c with domain := match c.domain with
                     | some v => some v
                     | none => some (JVal.str hostname) }

/-- The minimal hardcoded default record returned when every configuration
source produced absence (worker index, getDomainConfig, final return).
Note the default mode is the string landing. -/
def defaultRec (hostname : String) : Rec :=
  { domain := some (JVal.str hostname)
    mode := some (JVal.str "landing")
    title := some (JVal.str "Premium Domain For Sale")
    description := some (JVal.str "This premium domain is available for purchase.")
    registrationDate := some JVal.jnull
    salePrice := some JVal.jnull
    contactEmail := some JVal.jnull
    accentColor := some (JVal.str "#3b82f6")
    launchDate := some JVal.jnull
    tagline := some JVal.jnull
    subtitle := some JVal.jnull }

/-- Environment-variable JSON blob stage of getDomainConfig: read
`<PREFIX>_CONFIG`; when present, non-empty (truthiness guard) and parsing as
JSON, spread it over the hostname seed; otherwise fall through to the
hardcoded default record. -/
def getDomainConfigEnvJson (hostname : String) (env : Env) :
    Rec × Option (List Rec) :=
  match env.vars (envPrefixOf hostname ++ "_CONFIG") with
  | some s =>
    if s = "" then (defaultRec hostname, none)
    else
      match env.parseConfig s with
      | some r => (seedDomain hostname r, none)
      | none => (defaultRec hostname, none)
  | none => (defaultRec hostname, none)

/-- Remote KV stage of getDomainConfig: when the DOMAIN_CONFIGS binding exists
and the lookup does not fault, try the exact hostname key and then the
sentinel key _default; a fault (caught and logged by the code) or the missing
binding falls through to the environment JSON blob stage. -/
def getDomainConfigStores (hostname : String) (env : Env) :
    Rec × Option (List Rec) :=
  if env.kvBound ∧ ¬env.kvError then
    match env.kvGet hostname with
    | some c => (seedDomain hostname c, none)
    | none =>
      match env.kvGet "_default" with
      | some c => (seedDomain hostname c, none)
      | none => getDomainConfigEnvJson hostname env
  else getDomainConfigEnvJson hostname env

/-- getDomainConfig: for the three development hostnames try the local dev
config file first (array format: first theme becomes the base record and the
full list is passed along; old object format: the object itself; an empty
array spreads to the bare hostname seed); otherwise, and when the file is
missing or invalid, continue with the KV and environment stages. -/
def getDomainConfig (hostname : String) (env : Env) : Rec × Option (List Rec) :=
  if hostname = "localhost" ∨ hostname = "127.0.0.1" ∨
      hostname = "domain-parkour.apiary.workers.dev" then
    match env.devFile with
    | some (DevFile.arr (t :: ts)) => (seedDomain hostname t, some (t :: ts))
    | some (DevFile.arr []) => (seedDomain hostname ({} : Rec), none)
    | some (DevFile.obj r) => (seedDomain hostname r, none)
    | none => getDomainConfigStores hostname env
  else getDomainConfigStores hostname env

/-- Splitting a character list on the dot character, mirroring the JavaScript
String.prototype.split with separator ".". -/
def splitDot : List Char → List (List Char)
  | [] => [[]]
  | c :: rest =>
    if c = '.' then [] :: splitDot rest
    else
      match splitDot rest with
      | g :: gs => (c :: g) :: gs
      | [] => [[c]]

/-- JavaScript split on "." as a string function. -/
def jsSplitDot (s : String) : List String :=
  (splitDot s.toList).map String.mk

/-- One group of a dotted-quad IPv4 literal: one to three ASCII digits. -/
def isIpGroup (g : String) : Bool :=
  decide (1 ≤ g.length) && decide (g.length ≤ 3) && g.toList.all Char.isDigit

/-- Model of the test of the regular expression (backslash d meaning a digit)
caret (d 1-3 dot) times 3, d 1-3, dollar: the string is exactly four groups of
one to three digits separated by dots. -/
def isIpAddress (t : String) : Bool :=
  match jsSplitDot t with
  | [a, b, c, d] => isIpGroup a && isIpGroup b && isIpGroup c && isIpGroup d
  | _ => false

/-- The domain-extension computation of getConfig: guarded by truthiness of
domainTitle (non-empty) and by not being an IPv4 literal; when splitting on
"." yields more than one label the extension is "." followed by the last
label, otherwise the empty string. -/
def computeDomainExtension (t : String) : String :=
  if t = "" then ""
  else if isIpAddress t then ""
  else
    let parts := jsSplitDot t
    if parts.length > 1 then "." ++ parts.getLastD "" else ""

/-- The extension computation on the resolved (JavaScript-valued) domainTitle;
only string-valued titles are inside the modelled fragment (a non-string
truthy title would make the source throw at the split call). -/
def computeDomainExtensionV : Option JVal → String
  | some (JVal.str s) => computeDomainExtension s
  | _ => ""

/-- Gregorian leap year. -/
def isLeap (y : Int) : Bool :=
  (y % 4 = 0 ∧ y % 100 ≠ 0) ∨ y % 400 = 0

/-- Days in a month of the proleptic Gregorian calendar. -/
def daysInMonth (y m : Int) : Int :=
  if m = 2 then (if isLeap y then 29 else 28)
  else if m = 4 ∨ m = 6 ∨ m = 9 ∨ m = 11 then 30
  else 31

/-- Days from the Unix epoch to the given civil date (standard
days-from-civil computation, floored divisions). -/
def daysFromCivil (y m d : Int) : Int :=
  let yAdj := if m ≤ 2 then y - 1 else y
  let era := Int.fdiv yAdj 400
  let yoe := yAdj - era * 400
  let mp := if m > 2 then m - 3 else m + 9
  let doy := Int.fdiv (153 * mp + 2) 5 + d - 1
  let doe := yoe * 365 + Int.fdiv yoe 4 - Int.fdiv yoe 100 + doy
  era * 146097 + doe - 719468

/-- Epoch milliseconds of UTC midnight of a civil date. -/
def msOfDate (y m d : Int) : Int :=
  daysFromCivil y m d * 86400000

/-- Model of JavaScript `new Date(s)` restricted to strict ISO `YYYY-MM-DD`
strings denoting valid calendar dates (parsed as UTC midnight, as JavaScript
does for date-only ISO forms); the result is the epoch-millisecond value
paired with the year (what getFullYear returns in the UTC runtime). Every
other string is an invalid date (`none`). -/
def jsDateParse (s : String) : Option (Int × Int) :=
  match s.toList with
  | [y1, y2, y3, y4, '-', m1, m2, '-', d1, d2] =>
    if [y1, y2, y3, y4, m1, m2, d1, d2].all Char.isDigit then
      let dv : Char → Int := fun c => (c.toNat : Int) - 48
      let y := ((dv y1 * 10 + dv y2) * 10 + dv y3) * 10 + dv y4
      let m := dv m1 * 10 + dv m2
      let d := dv d1 * 10 + dv d2
      if 1 ≤ m ∧ m ≤ 12 ∧ 1 ≤ d ∧ d ≤ daysInMonth y m then
        some (msOfDate y m d, y)
      else none
    else none
  | _ => none

/-- Milliseconds in 365.25 days (1000 * 60 * 60 * 24 * 365.25, exactly). -/
def msPerYear : Int := 31557600000

/-- The registration-age fragment of getConfig: when the resolved
registrationDate is truthy, parse it as a date; on success the age is the
floor of the millisecond difference divided by 365.25 days rendered with a
trailing plus sign, and the registration sentence uses the parsed year. An
invalid date propagates NaN through getTime, the floored division and
getFullYear, producing the literal NaN renderings. A truthy boolean input is
coerced by the Date constructor to the number 1 (one millisecond past the
epoch, year 1970). A falsy registrationDate leaves both fields as the empty
strings they were initialised to. -/
def deriveAge (nowMs : Int) (registrationDate : Option JVal) : String × String :=
  if truthy registrationDate then
    match registrationDate with
    | some (JVal.str s) =>
      match jsDateParse s with
      | some md =>
        (toString (Int.fdiv (nowMs - md.1) msPerYear) ++ "+",
         "Registered in " ++ toString md.2)
      | none => ("NaN+", "Registered in NaN")
    | some (JVal.bool _) =>
      (toString (Int.fdiv (nowMs - 1) msPerYear) ++ "+", "Registered in 1970")
    | _ => ("", "")
  else ("", "")

/-- The resolved registrationDate of getConfig (a local of the source, not a
property of the final record): per-domain environment variable, else global,
else the base record value, chained with JavaScript or. -/
def resolveRegistrationDate (hostname : String) (env : Env) (base : Rec) :
    Option JVal :=
  jor (jor (envV env (envPrefixOf hostname ++ "_REGISTRATION_DATE"))
        (envV env "REGISTRATION_DATE"))
    base.registrationDate

/-- The resolved domain of getConfig: environment chain, then the base record
domain, then the request hostname. -/
def resolveDomain (hostname : String) (env : Env) (base : Rec) : Option JVal :=
  jor (jor (jor (envV env (envPrefixOf hostname ++ "_DOMAIN"))
          (envV env "DOMAIN"))
      base.domain)
    (some (JVal.str hostname))

/-- The resolved domainTitle of getConfig: environment chain, then the base
record domainTitle, then the resolved domain. -/
def resolveDomainTitle (hostname : String) (env : Env) (base : Rec) :
    Option JVal :=
  jor (jor (jor (envV env (envPrefixOf hostname ++ "_DOMAIN_TITLE"))
          (envV env "DOMAIN_TITLE"))
      base.domainTitle)
    (resolveDomain hostname env base)

/-- The override-and-derive phase of getConfig, applied to the base record
returned by getDomainConfig. Every scalar field is resolved with the
JavaScript or chain per-domain variable, global variable, base value; mode
additionally falls back to the string parking, domain to the hostname and
domainTitle to the resolved domain. The derived fields prefer a truthy base
value over the recomputed one. The final record has no registrationDate
property (the source omits it from finalConfig); showCredit is the base value
when the property exists, else true. -/
def applyOverrides (hostname : String) (env : Env) (nowMs : Int) (base : Rec) :
    Rec :=
  let p := envPrefixOf hostname
  let derived := deriveAge nowMs (resolveRegistrationDate hostname env base)
  { domain := resolveDomain hostname env base
    domainTitle := resolveDomainTitle hostname env base
    mode := jor (jor (jor (envV env (p ++ "_MODE")) (envV env "MODE")) base.mode)
      (some (JVal.str "parking"))
    title := jor (jor (envV env (p ++ "_TITLE")) (envV env "TITLE")) base.title
    description := jor (jor (envV env (p ++ "_DESCRIPTION"))
        (envV env "DESCRIPTION"))
      base.description
    domainAgeYears := jor base.domainAgeYears (some (JVal.str derived.1))
    domainRegistration := jor base.domainRegistration (some (JVal.str derived.2))
    domainExtension := jor base.domainExtension
      (some (JVal.str (computeDomainExtensionV
        (resolveDomainTitle hostname env base))))
    salePrice := jor (jor (envV env (p ++ "_SALE_PRICE")) (envV env "SALE_PRICE"))
      base.salePrice
    contactEmail := jor (jor (envV env (p ++ "_CONTACT_EMAIL"))
        (envV env "CONTACT_EMAIL"))
      base.contactEmail
    accentColor := jor (jor (envV env (p ++ "_ACCENT_COLOR"))
        (envV env "ACCENT_COLOR"))
      base.accentColor
    launchDate := jor (jor (envV env (p ++ "_LAUNCH_DATE"))
        (envV env "LAUNCH_DATE"))
      base.launchDate
    tagline := jor (jor (envV env (p ++ "_TAGLINE")) (envV env "TAGLINE"))
      base.tagline
    subtitle := jor (jor (envV env (p ++ "_SUBTITLE")) (envV env "SUBTITLE"))
      base.subtitle
    footerText := jor (jor (envV env (p ++ "_FOOTER_TEXT"))
        (envV env "FOOTER_TEXT"))
      base.footerText
    registrationDate := none
    showCredit := match base.showCredit with
                  | some v => some v
                  | none => some (JVal.bool true) }

/-- getConfig: fetch the base record, in dev mode optionally replace it by the
theme selected through the themeIndex query parameter (when the index is in
range), then apply the environment overrides and derived-field computation.
`themeIndexParam` is the parsed integer query parameter (`none` when there is
no request or no parameter, or parseInt returned NaN). -/
def getConfig (hostname : String) (env : Env) (nowMs : Int)
    (themeIndexParam : Option Int) : Rec :=
  let res := getDomainConfig hostname env
  let base :=
    match res.2, themeIndexParam with
    | some themes, some i =>
      if 0 ≤ i ∧ i < (themes.length : Int) then
        match themes[i.toNat]? with
        | some t => seedDomain hostname t
        | none => res.1
      else res.1
    | _, _ => res.1
  applyOverrides hostname env nowMs base

/-- The credit line of the shared footer component (templates/components.js),
as rendered when showCredit holds. -/
def creditLineHTML : String :=
  "\n      <p class=\"text-xs mt-2\">\n        Built with <a href=\"https://github.com/thinkdj/domain-parkour\" target=\"_blank\" rel=\"noopener noreferrer\" class=\"hover:underline\">Domain Parkour</a> and hosted on <a href=\"https://cloudflare.com\" target=\"_blank\" rel=\"noopener noreferrer\" class=\"hover:underline\">Cloudflare</a>.\n      </p>"

/-- renderFooter of templates/components.js: when the footerText argument is
strictly equal to the empty string the footer is hidden completely; otherwise
the footer block is emitted with the stringified text and, when showCredit
holds, the credit line. In the source showCredit is a default parameter with
default true. -/
def renderFooter (footerText : Option JVal) (showCredit : Bool) : String :=
  if footerText = some (JVal.str "") then ""
  else
    let creditLine := if showCredit then creditLineHTML else ""
    "\n    <div class=\"text-center mt-20 fade-in-delay-3 dark:text-gray-700 text-gray-400\">\n      <p class=\"text-xs\">\n        " ++ jsDisplayOpt footerText ++ "\n      </p>\n      " ++ creditLine ++ "\n    </div>"

/-- The footer of the parking page (templates/parking.js): renderFooter
applied to the configured footerText when the property exists, else to the
default sentence. The call site passes no second argument, so the JavaScript
default parameter makes showCredit true regardless of the resolved
showCredit configuration field. -/
def parkingFooter (cfg : Rec) : String :=
  renderFooter
    (match cfg.footerText with
     | some v => some v
     | none => some (JVal.str "This premium domain is available for purchase"))
    true

/-- The footer of the landing page (templates/landing.js, current revision):
renderFooter applied to the configured footerText when the property exists,
else to the domainTitle value. As on the parking page, the call site passes
no second argument, so the JavaScript default parameter makes showCredit
true regardless of the resolved showCredit configuration field. -/
def landingFooter (cfg : Rec) : String :=
  renderFooter
    (match cfg.footerText with
     | some v => some v
     | none => cfg.domainTitle)
    true

/-- The text written inside the coming-soon footer block
(templates/coming-soon.js): footerText when the property exists (stringified),
else one of two default sentences chosen by truthiness of launchDate. -/
def comingSoonFooterText (cfg : Rec) : String :=
  match cfg.footerText with
  | some v => jsDisplay v
  | none =>
    if truthy cfg.launchDate then "Stay tuned for our launch"
    else "Something exciting is coming"

/-- The footer block of renderComingSoonContent (templates/coming-soon.js),
emitted unconditionally. -/
def comingSoonFooter (cfg : Rec) : String :=
  "\n            <!-- Footer -->\n            <div class=\"text-center mt-20 fade-in-delay-3\">\n                <p class=\"text-xs dark:text-gray-700 text-gray-400\">\n                    " ++ comingSoonFooterText cfg ++ "\n                </p>\n            </div>"

/-- The footer block of the page produced by the worker fetch handler: the
mode dispatch of the entry point (coming-soon, landing, anything else parking)
restricted to the footer fragment of each template. -/
def pageFooter (cfg : Rec) : String :=
  if cfg.mode = some (JVal.str "coming-soon") then comingSoonFooter cfg
  else if cfg.mode = some (JVal.str "landing") then landingFooter cfg
  else parkingFooter cfg

/-- The record yielded by the local dev override source, when it applies:
development hostnames only, file present, first theme of the array format
(an empty array spreads to the bare hostname seed), or the old object
format. -/
def devOutcome (hostname : String) (env : Env) : Option Rec :=
  if hostname = "localhost" ∨ hostname = "127.0.0.1" ∨
      hostname = "domain-parkour.apiary.workers.dev" then
    match env.devFile with
    | some (DevFile.arr (t :: _)) => some (seedDomain hostname t)
    | some (DevFile.arr []) => some (seedDomain hostname ({} : Rec))
    | some (DevFile.obj r) => some (seedDomain hostname r)
    | none => none
  else none

/-- The record yielded by the exact-hostname KV lookup, when the binding
exists and the lookup does not fault. -/
def kvExactOutcome (hostname : String) (env : Env) : Option Rec :=
  if env.kvBound ∧ ¬env.kvError then
    (env.kvGet hostname).map (seedDomain hostname)
  else none

/-- The record yielded by the sentinel-key KV lookup, when the binding exists
and the lookup does not fault. -/
def kvDefaultOutcome (hostname : String) (env : Env) : Option Rec :=
  if env.kvBound ∧ ¬env.kvError then
    (env.kvGet "_default").map (seedDomain hostname)
  else none

/-- The record yielded by the environment JSON blob: the per-domain CONFIG
variable, when present, non-empty and parsing as JSON. -/
def envJsonOutcome (hostname : String) (env : Env) : Option Rec :=
  match env.vars (envPrefixOf hostname ++ "_CONFIG") with
  | some s =>
    if s = "" then none else (env.parseConfig s).map (seedDomain hostname)
  | none => none

lemma envJson_base_chain (h : String) (e : Env) :
    (getDomainConfigEnvJson h e).1 = (envJsonOutcome h e).getD (defaultRec h) := by
  unfold getDomainConfigEnvJson envJsonOutcome
  cases e.vars (envPrefixOf h ++ "_CONFIG") with
  | none => rfl
  | some s =>
    by_cases hs : s = ""
    · simp only [hs, if_pos rfl]; rfl
    · simp only [if_neg hs]
      cases e.parseConfig s <;> rfl

lemma stores_base_chain (h : String) (e : Env) :
    (getDomainConfigStores h e).1 =
      ((kvExactOutcome h e).orElse fun _ =>
        (kvDefaultOutcome h e).orElse fun _ => envJsonOutcome h e).getD
        (defaultRec h) := by
  unfold getDomainConfigStores kvExactOutcome kvDefaultOutcome
  by_cases hb : e.kvBound ∧ ¬e.kvError
  · simp only [if_pos hb]
    cases e.kvGet h with
    | some c => rfl
    | none =>
      cases e.kvGet "_default" with
      | some c => rfl
      | none => exact envJson_base_chain h e
  · simp only [if_neg hb]
    exact envJson_base_chain h e

lemma getDomainConfig_base_chain (h : String) (e : Env) :
    (getDomainConfig h e).1 =
      ((devOutcome h e).orElse fun _ =>
        (kvExactOutcome h e).orElse fun _ =>
          (kvDefaultOutcome h e).orElse fun _ => envJsonOutcome h e).getD
        (defaultRec h) := by
  unfold getDomainConfig devOutcome
  by_cases hd : h = "localhost" ∨ h = "127.0.0.1" ∨
      h = "domain-parkour.apiary.workers.dev"
  · simp only [if_pos hd]
    match e.devFile with
    | some (DevFile.arr (t :: ts)) => rfl
    | some (DevFile.arr []) => rfl
    | some (DevFile.obj r) => rfl
    | none => exact stores_base_chain h e
  · simp only [if_neg hd]
    exact stores_base_chain h e

lemma getDomainConfig_snd_of_dev_none (h : String) (e : Env)
    (hdev : devOutcome h e = none) : (getDomainConfig h e).2 = none := by
  unfold getDomainConfig
  unfold devOutcome at hdev
  by_cases hd : h = "localhost" ∨ h = "127.0.0.1" ∨
      h = "domain-parkour.apiary.workers.dev"
  · simp only [if_pos hd] at hdev ⊢
    match hm : e.devFile with
    | some (DevFile.arr (t :: ts)) => rw [hm] at hdev; exact absurd hdev (by simp)
    | some (DevFile.arr []) => rfl
    | some (DevFile.obj r) => rfl
    | none =>
      unfold getDomainConfigStores
      by_cases hb : e.kvBound ∧ ¬e.kvError
      · simp only [if_pos hb]
        cases e.kvGet h with
        | some c => rfl
        | none =>
          cases e.kvGet "_default" with
          | some c => rfl
          | none =>
            unfold getDomainConfigEnvJson
            cases e.vars (envPrefixOf h ++ "_CONFIG") with
            | none => rfl
            | some s =>
              by_cases hs : s = ""
              · subst hs; rfl
              · simp only [if_neg hs]
                cases e.parseConfig s <;> rfl
      · simp only [if_neg hb]
        unfold getDomainConfigEnvJson
        cases e.vars (envPrefixOf h ++ "_CONFIG") with
        | none => rfl
        | some s =>
          by_cases hs : s = ""
          · subst hs; rfl
          · simp only [if_neg hs]
            cases e.parseConfig s <;> rfl
  · simp only [if_neg hd]
    unfold getDomainConfigStores
    by_cases hb : e.kvBound ∧ ¬e.kvError
    · simp only [if_pos hb]
      cases e.kvGet h with
      | some c => rfl
      | none =>
        cases e.kvGet "_default" with
        | some c => rfl
        | none =>
          unfold getDomainConfigEnvJson
          cases e.vars (envPrefixOf h ++ "_CONFIG") with
          | none => rfl
          | some s =>
            by_cases hs : s = ""
            · subst hs; rfl
            · simp only [if_neg hs]
              cases e.parseConfig s <;> rfl
    · simp only [if_neg hb]
      unfold getDomainConfigEnvJson
      cases e.vars (envPrefixOf h ++ "_CONFIG") with
      | none => rfl
      | some s =>
        by_cases hs : s = ""
        · subst hs; rfl
        · simp only [if_neg hs]
          cases e.parseConfig s <;> rfl

lemma jor_of_truthy (a b : Option JVal) (h : truthy a = true) : jor a b = a := by
  simp [jor, h]

lemma jor_of_falsy (a b : Option JVal) (h : truthy a = false) : jor a b = b := by
  simp [jor, h]

lemma jor_none (b : Option JVal) : jor none b = b := rfl

/-- An environment with no variables, no KV binding and no dev file. -/
def emptyEnv : Env :=
  { vars := fun _ => none
    kvBound := false
    kvError := false
    kvGet := fun _ => none
    parseConfig := fun _ => none
    devFile := none }

/-- Epoch milliseconds of UTC midnight, 2025-06-01: the fixed evaluation
instant used by concrete instances. -/
def ms20250601 : Int := msOfDate 2025 6 1

/-- The scalar fields whose resolution is the plain three-step chain
(per-domain variable, global variable, base value) with no extra fallback. -/
inductive ScalarField where
  | title
  | description
  | salePrice
  | contactEmail
  | accentColor
  | launchDate
  | tagline
  | subtitle
  | footerText
deriving Repr, DecidableEq

/-- Field projection of the configuration record. -/
def scalarGet (r : Rec) : ScalarField → Option JVal
  | ScalarField.title => r.title
  | ScalarField.description => r.description
  | ScalarField.salePrice => r.salePrice
  | ScalarField.contactEmail => r.contactEmail
  | ScalarField.accentColor => r.accentColor
  | ScalarField.launchDate => r.launchDate
  | ScalarField.tagline => r.tagline
  | ScalarField.subtitle => r.subtitle
  | ScalarField.footerText => r.footerText

/-- The per-domain environment variable name suffix of a scalar field. -/
def perDomainSuffix : ScalarField → String
  | ScalarField.title => "_TITLE"
  | ScalarField.description => "_DESCRIPTION"
  | ScalarField.salePrice => "_SALE_PRICE"
  | ScalarField.contactEmail => "_CONTACT_EMAIL"
  | ScalarField.accentColor => "_ACCENT_COLOR"
  | ScalarField.launchDate => "_LAUNCH_DATE"
  | ScalarField.tagline => "_TAGLINE"
  | ScalarField.subtitle => "_SUBTITLE"
  | ScalarField.footerText => "_FOOTER_TEXT"

/-- The global environment variable name of a scalar field. -/
def globalKey : ScalarField → String
  | ScalarField.title => "TITLE"
  | ScalarField.description => "DESCRIPTION"
  | ScalarField.salePrice => "SALE_PRICE"
  | ScalarField.contactEmail => "CONTACT_EMAIL"
  | ScalarField.accentColor => "ACCENT_COLOR"
  | ScalarField.launchDate => "LAUNCH_DATE"
  | ScalarField.tagline => "TAGLINE"
  | ScalarField.subtitle => "SUBTITLE"
  | ScalarField.footerText => "FOOTER_TEXT"

/-- Scalar-field resolution following the words of the specification: nullish
coalescing, so presence (not truthiness) of an environment entry decides each
step. Written from the spec, for comparison against the behaviour of the
source. -/
def specResolveScalar (hostname : String) (env : Env) (base : Rec)
    (f : ScalarField) : Option JVal :=
  match envV env (envPrefixOf hostname ++ perDomainSuffix f) with
  | some v => some v
  | none =>
    match envV env (globalKey f) with
    | some v => some v
    | none => scalarGet base f

/-- Environment of the C1 counterexample: the per-domain title variable is
present but holds the empty string, the global title variable holds a
non-empty string. -/
def c1Env : Env :=
  { emptyEnv with
      vars := fun k =>
        if k = "X_COM_TITLE" then some ""
        else if k = "TITLE" then some "Global" else none }

/-- C1 counterexample: with the per-domain title override present in the
environment but equal to the empty string, the specified nullish-coalescing
resolution keeps the per-domain empty string, while the source (JavaScript
or, which tests truthiness) resolves the global value instead, so the claimed
presence-based resolution law fails. -/
theorem c1_presence_counterexample :
    scalarGet (applyOverrides "x.com" c1Env ms20250601 ({} : Rec))
        ScalarField.title ≠
      specResolveScalar "x.com" c1Env ({} : Rec) ScalarField.title := by decide

/-- C1 (amended): for every hostname, environment and base record, each
scalar field of the table resolves by the JavaScript or chain per-domain
variable, global variable, base value (truthiness, not presence, decides each
step); the per-domain name is the prefix joined to the global name by an
underscore; mode additionally falls back to the string parking, domain to the
request hostname, domainTitle to the resolved domain, and registrationDate
follows the same chain (feeding only the derived-field computation). -/
theorem c1_truthiness_resolution (hostname : String) (env : Env) (nowMs : Int)
    (base : Rec) :
    (∀ f : ScalarField, perDomainSuffix f = "_" ++ globalKey f) ∧
    (∀ f : ScalarField,
      scalarGet (applyOverrides hostname env nowMs base) f =
        jor (jor (envV env (envPrefixOf hostname ++ perDomainSuffix f))
              (envV env (globalKey f)))
          (scalarGet base f)) ∧
    (applyOverrides hostname env nowMs base).mode =
      jor (jor (jor (envV env (envPrefixOf hostname ++ "_MODE"))
              (envV env "MODE"))
          base.mode)
        (some (JVal.str "parking")) ∧
    (applyOverrides hostname env nowMs base).domain =
      jor (jor (jor (envV env (envPrefixOf hostname ++ "_DOMAIN"))
              (envV env "DOMAIN"))
          base.domain)
        (some (JVal.str hostname)) ∧
    (applyOverrides hostname env nowMs base).domainTitle =
      jor (jor (jor (envV env (envPrefixOf hostname ++ "_DOMAIN_TITLE"))
              (envV env "DOMAIN_TITLE"))
          base.domainTitle)
        (resolveDomain hostname env base) ∧
    resolveRegistrationDate hostname env base =
      jor (jor (envV env (envPrefixOf hostname ++ "_REGISTRATION_DATE"))
            (envV env "REGISTRATION_DATE"))
        base.registrationDate :=
  ⟨fun f => by cases f <;> rfl, fun f => by cases f <;> rfl, rfl, rfl, rfl, rfl⟩

/-- C2: the base configuration record returned by getDomainConfig is the
first record yielded by the priority chain local dev file (development
hostnames only), KV exact hostname, KV sentinel default, environment CONFIG
blob, falling back to the hardcoded default record when all four sources
produce absence. -/
theorem c2_source_priority_chain (hostname : String) (env : Env) :
    (getDomainConfig hostname env).1 =
      ((devOutcome hostname env).orElse fun _ =>
        (kvExactOutcome hostname env).orElse fun _ =>
          (kvDefaultOutcome hostname env).orElse fun _ =>
            envJsonOutcome hostname env).getD (defaultRec hostname) :=
  getDomainConfig_base_chain hostname env

/-- The fully resolved configuration of the C3 counterexample: a plain
hostname against the empty environment. -/
def c3Config : Rec := getConfig "example.com" emptyEnv ms20250601 none

/-- C3 counterexample: with no dev file, no KV entries and no environment
overrides the resolved mode is the string landing (the hardcoded default
record declares mode landing), not parking as claimed; the accent colour is
the default blue as claimed. -/
theorem c3_mode_counterexample :
    c3Config.mode ≠ some (JVal.str "parking") ∧
    c3Config.mode = some (JVal.str "landing") ∧
    c3Config.accentColor = some (JVal.str "#3b82f6") := by decide

/-- C3 (amended): for every hostname and environment for which the dev
source, both KV lookups and the CONFIG blob produce absence and the mode and
accent-colour overrides are absent from the environment, the resolved
configuration has mode landing (the mode of the hardcoded default record) and
accentColor the default blue. -/
theorem c3_defaults_amended (hostname : String) (env : Env) (nowMs : Int)
    (ti : Option Int)
    (hdev : devOutcome hostname env = none)
    (hkv1 : kvExactOutcome hostname env = none)
    (hkv2 : kvDefaultOutcome hostname env = none)
    (hblob : envJsonOutcome hostname env = none)
    (hm1 : env.vars (envPrefixOf hostname ++ "_MODE") = none)
    (hm2 : env.vars "MODE" = none)
    (ha1 : env.vars (envPrefixOf hostname ++ "_ACCENT_COLOR") = none)
    (ha2 : env.vars "ACCENT_COLOR" = none) :
    (getConfig hostname env nowMs ti).mode = some (JVal.str "landing") ∧
    (getConfig hostname env nowMs ti).accentColor = some (JVal.str "#3b82f6") := by
  have hbase := getDomainConfig_base_chain hostname env
  rw [hdev, hkv1, hkv2, hblob] at hbase
  have hsnd := getDomainConfig_snd_of_dev_none hostname env hdev
  constructor <;>
    simp [getConfig, hsnd, hbase, applyOverrides, envV, hm1, hm2, ha1, ha2,
      jor, truthy, defaultRec]

/-- Witness for the amended C3 at a concrete hostname and the empty
environment. -/
theorem c3_defaults_witness :
    (getConfig "witness.example" emptyEnv 0 none).mode =
      some (JVal.str "landing") ∧
    (getConfig "witness.example" emptyEnv 0 none).accentColor =
      some (JVal.str "#3b82f6") :=
  c3_defaults_amended "witness.example" emptyEnv 0 none (by decide) (by decide)
    (by decide) (by decide) rfl rfl rfl rfl

/-- Base record of the C4 counterexample: it supplies domainAgeYears directly
(the empty string) together with a parseable registration date. -/
def c4Base : Rec :=
  { domainAgeYears := some (JVal.str "")
    registrationDate := some (JVal.str "2010-01-15") }

/-- C4 counterexample: the base record supplies domainAgeYears directly, yet
the final record carries the recomputed value 15+ instead of the supplied
empty string, because the source prefers the base value only when truthy. -/
theorem c4_presupplied_counterexample :
    (applyOverrides "example.com" emptyEnv ms20250601 c4Base).domainAgeYears ≠
      c4Base.domainAgeYears ∧
    (applyOverrides "example.com" emptyEnv ms20250601 c4Base).domainAgeYears =
      some (JVal.str "15+") := by decide

/-- C4 (amended): a pre-supplied derived field of the base record wins over
recomputation exactly when it is truthy (JavaScript or); when it is absent or
falsy the recomputed value (from the resolved registrationDate and
domainTitle) is used. -/
theorem c4_derived_precedence_amended (hostname : String) (env : Env)
    (nowMs : Int) (base : Rec) :
    (truthy base.domainAgeYears = true →
      (applyOverrides hostname env nowMs base).domainAgeYears =
        base.domainAgeYears) ∧
    (truthy base.domainAgeYears = false →
      (applyOverrides hostname env nowMs base).domainAgeYears =
        some (JVal.str
          (deriveAge nowMs (resolveRegistrationDate hostname env base)).1)) ∧
    (truthy base.domainRegistration = true →
      (applyOverrides hostname env nowMs base).domainRegistration =
        base.domainRegistration) ∧
    (truthy base.domainRegistration = false →
      (applyOverrides hostname env nowMs base).domainRegistration =
        some (JVal.str
          (deriveAge nowMs (resolveRegistrationDate hostname env base)).2)) ∧
    (truthy base.domainExtension = true →
      (applyOverrides hostname env nowMs base).domainExtension =
        base.domainExtension) ∧
    (truthy base.domainExtension = false →
      (applyOverrides hostname env nowMs base).domainExtension =
        some (JVal.str
          (computeDomainExtensionV (resolveDomainTitle hostname env base)))) := by
  refine ⟨fun h => ?_, fun h => ?_, fun h => ?_, fun h => ?_, fun h => ?_,
    fun h => ?_⟩ <;> simp [applyOverrides, jor, h]

/-- Witness for the amended C4: the falsy pre-supplied age of the
counterexample record is replaced by the recomputed age. -/
theorem c4_derived_precedence_witness :
    (applyOverrides "example.com" emptyEnv ms20250601 c4Base).domainAgeYears =
      some (JVal.str
        (deriveAge ms20250601
          (resolveRegistrationDate "example.com" emptyEnv c4Base)).1) :=
  (c4_derived_precedence_amended "example.com" emptyEnv ms20250601 c4Base).2.1
    (by decide)

/-- C5 counterexample: a registrationDate that is a non-empty string not
parsing as a date yields the NaN renderings, not the claimed empty
strings. -/
theorem c5_malformed_date_counterexample :
    deriveAge ms20250601 (some (JVal.str "not-a-date")) ≠ ("", "") ∧
    deriveAge ms20250601 (some (JVal.str "not-a-date")) =
      ("NaN+", "Registered in NaN") := by decide

/-- C5 (amended): a falsy registrationDate (absent, null or the empty string)
yields empty derived fields with no error; a truthy string that does not
parse as a date instead yields NaN-plus and Registered in NaN, the NaN of the
invalid date propagating through the arithmetic and the year accessor. -/
theorem c5_silent_degradation_amended (nowMs : Int) (rd : Option JVal) :
    (truthy rd = false → deriveAge nowMs rd = ("", "")) ∧
    (∀ s : String, rd = some (JVal.str s) → jsDateParse s = none →
      truthy rd = true →
      deriveAge nowMs rd = ("NaN+", "Registered in NaN")) := by
  constructor
  · intro h
    simp [deriveAge, h]
  · intro s hs hp ht
    subst hs
    simp [deriveAge, ht, hp]

/-- Witness for the amended C5: the absent date and a concrete malformed
date. -/
theorem c5_silent_degradation_witness :
    deriveAge 0 none = ("", "") ∧
    deriveAge 0 (some (JVal.str "not-a-real-date")) =
      ("NaN+", "Registered in NaN") :=
  ⟨(c5_silent_degradation_amended 0 none).1 rfl,
   (c5_silent_degradation_amended 0 (some (JVal.str "not-a-real-date"))).2
     "not-a-real-date" rfl (by decide) rfl⟩

/-- C6: the computed domain extension: empty for dotted-quad IPv4 literals;
for any other title splitting on the dot into more than one label it is the
dot followed by the last label; for a single label it is empty. -/
theorem c6_extension_cases (t : String) :
    (isIpAddress t = true → computeDomainExtension t = "") ∧
    (isIpAddress t = false → (jsSplitDot t).length > 1 →
      computeDomainExtension t = "." ++ (jsSplitDot t).getLastD "") ∧
    ((jsSplitDot t).length ≤ 1 → computeDomainExtension t = "") := by
  refine ⟨fun hip => ?_, fun hip hlen => ?_, fun hlen => ?_⟩
  · by_cases ht : t = ""
    · simp [computeDomainExtension, ht]
    · simp [computeDomainExtension, ht, hip]
  · have ht : ¬ t = "" := by
      intro h
      subst h
      simp [jsSplitDot, splitDot] at hlen
    simp [computeDomainExtension, ht, hip, hlen]
  · by_cases ht : t = ""
    · simp [computeDomainExtension, ht]
    · by_cases hip : isIpAddress t
      · simp [computeDomainExtension, ht, hip]
      · have hn : ¬ (jsSplitDot t).length > 1 := by omega
        simp [computeDomainExtension, ht, hip, hn]

/-- Witness for C6 at the IPv4 literal of the spec and at a dotted
hostname. -/
theorem c6_extension_witness :
    computeDomainExtension "127.0.0.1" = "" ∧
    computeDomainExtension "cdn-farm.io" =
      "." ++ (jsSplitDot "cdn-farm.io").getLastD "" ∧
    computeDomainExtension "single" = "" :=
  ⟨(c6_extension_cases "127.0.0.1").1 (by decide),
   (c6_extension_cases "cdn-farm.io").2.1 (by decide) (by decide),
   (c6_extension_cases "single").2.2 (by decide)⟩

/-- C7: when the resolved registrationDate parses as a date the derived age
is the floored millisecond difference divided by 365.25 days rendered with a
trailing plus sign and the registration sentence uses the parsed year; at the
fixed evaluation instant 2025-06-01 the date 2010-01-15 yields the age 15+
and the sentence Registered in 2010. -/
theorem c7_age_computation :
    (∀ (nowMs : Int) (s : String) (ms y : Int),
      jsDateParse s = some (ms, y) →
      deriveAge nowMs (some (JVal.str s)) =
        (toString (Int.fdiv (nowMs - ms) msPerYear) ++ "+",
         "Registered in " ++ toString y)) ∧
    deriveAge (msOfDate 2025 6 1) (some (JVal.str "2010-01-15")) =
      ("15+", "Registered in 2010") := by
  constructor
  · intro nowMs s ms y hp
    have hs : ¬ s = "" := by
      intro h
      subst h
      simp [jsDateParse] at hp
    simp [deriveAge, truthy, hs, hp]
  · decide

/-- Witness for C7: the general law applied at the concrete date of the
claim. -/
theorem c7_age_witness :
    deriveAge (msOfDate 2025 6 1) (some (JVal.str "2010-01-15")) =
      (toString (Int.fdiv (msOfDate 2025 6 1 - 1263513600000) msPerYear) ++ "+",
       "Registered in " ++ toString (2010 : Int)) :=
  c7_age_computation.1 (msOfDate 2025 6 1) "2010-01-15" 1263513600000 2010
    (by decide)

set_option maxRecDepth 8000 in
lemma comingSoonFooter_ne_empty (cfg : Rec) : comingSoonFooter cfg ≠ "" := by
  intro h
  unfold comingSoonFooter at h
  have hlen := congrArg String.length h
  rw [String.length_append, String.length_append] at hlen
  have h1 : 0 < String.length "\n            <!-- Footer -->\n            <div class=\"text-center mt-20 fade-in-delay-3\">\n                <p class=\"text-xs dark:text-gray-700 text-gray-400\">\n                    " := by decide
  have h0 : String.length "" = 0 := rfl
  rw [h0] at hlen
  omega

/-- Configuration of the C8 counterexample: empty footerText in coming-soon
mode. -/
def c8Cfg : Rec :=
  { footerText := some (JVal.str "")
    mode := some (JVal.str "coming-soon") }

set_option maxRecDepth 8000 in
/-- C8 counterexample: a configuration with footerText the empty string and
coming-soon mode still renders its footer block (with empty text), so the
rendered page does not lack a footer section. -/
theorem c8_footer_counterexample :
    pageFooter c8Cfg = comingSoonFooter c8Cfg ∧
    pageFooter c8Cfg ≠ "" ∧
    comingSoonFooterText c8Cfg = "" := by decide

/-- C8 (amended): footerText exactly the empty string suppresses the footer
section on the pages rendered through renderFooter (the parking and landing
dispatches), but the coming-soon page emits its footer block unconditionally,
with empty text; when footerText is undefined and the mode is landing, the
footer argument falls back to the domainTitle value, so a non-empty string
domainTitle is rendered as the footer text (followed by the credit line, the
call site passing no showCredit argument). -/
theorem c8_footer_amended (cfg : Rec) :
    (cfg.footerText = some (JVal.str "") →
      cfg.mode ≠ some (JVal.str "coming-soon") →
      pageFooter cfg = "") ∧
    (cfg.footerText = some (JVal.str "") →
      cfg.mode = some (JVal.str "coming-soon") →
      pageFooter cfg = comingSoonFooter cfg ∧ pageFooter cfg ≠ "") ∧
    (cfg.footerText = none → cfg.mode = some (JVal.str "landing") →
      pageFooter cfg = renderFooter cfg.domainTitle true) ∧
    (∀ t : String, cfg.footerText = none →
      cfg.mode = some (JVal.str "landing") →
      cfg.domainTitle = some (JVal.str t) → ¬ t = "" →
      pageFooter cfg =
        "\n    <div class=\"text-center mt-20 fade-in-delay-3 dark:text-gray-700 text-gray-400\">\n      <p class=\"text-xs\">\n        " ++ t ++ "\n      </p>\n      " ++ creditLineHTML ++ "\n    </div>") := by
  refine ⟨fun hf hm => ?_, fun hf hm => ?_, fun hf hm => ?_,
    fun t hf hm hdt ht => ?_⟩
  · by_cases hl : cfg.mode = some (JVal.str "landing")
    · simp [pageFooter, hm, hl, landingFooter, hf, renderFooter]
    · simp [pageFooter, hm, hl, parkingFooter, hf, renderFooter]
  · refine ⟨?_, ?_⟩ <;> simp [pageFooter, hm]
    exact comingSoonFooter_ne_empty cfg
  · simp [pageFooter, hm, landingFooter, hf]
  · simp [pageFooter, hm, landingFooter, hf, hdt, renderFooter, ht,
      jsDisplayOpt, jsDisplay]

/-- Configuration discharging the parking conjunct of the amended C8. -/
def c8ParkCfg : Rec :=
  { footerText := some (JVal.str "")
    mode := some (JVal.str "parking") }

/-- Configuration discharging the landing conjunct of the amended C8. -/
def c8LandCfg : Rec :=
  { footerText := some (JVal.str "")
    mode := some (JVal.str "landing") }

/-- Configuration discharging the undefined-footerText landing conjuncts of
the amended C8. -/
def c8UndefCfg : Rec :=
  { footerText := none
    mode := some (JVal.str "landing")
    domainTitle := some (JVal.str "example.com") }

/-- Witness for the amended C8: the empty footerText suppresses the parking
and landing footers; the coming-soon page of the counterexample configuration
keeps its footer block; an undefined footerText in landing mode falls back to
the domain title. -/
theorem c8_footer_witness :
    pageFooter c8ParkCfg = "" ∧
    pageFooter c8LandCfg = "" ∧
    pageFooter c8Cfg = comingSoonFooter c8Cfg ∧
    pageFooter c8UndefCfg = renderFooter c8UndefCfg.domainTitle true :=
  ⟨(c8_footer_amended c8ParkCfg).1 rfl (by decide),
   (c8_footer_amended c8LandCfg).1 rfl (by decide),
   ((c8_footer_amended c8Cfg).2.1 rfl rfl).1,
   (c8_footer_amended c8UndefCfg).2.2.1 rfl rfl⟩

/-- Base record of the C9 failing input: the README-documented showCredit
false together with a custom footer text. -/
def c9Base : Rec :=
  { footerText := some (JVal.str "Custom footer")
    showCredit := some (JVal.bool false) }

/-- The resolved configuration of the C9 failing input. -/
def c9Final : Rec := applyOverrides "example.com" emptyEnv ms20250601 c9Base

set_option maxRecDepth 8000 in
/-- C9: evaluation of the code at the failing input. The base record disables
showCredit and the resolved configuration carries showCredit false, yet the
parking footer equals the rendering with the credit line: the call site in
the parking template passes no showCredit argument, so the default parameter
true always applies and the resolved field is never consulted, contrary to
the README and to the renderFooter documentation. -/
theorem c9_credit_ignored :
    c9Final.showCredit = some (JVal.bool false) ∧
    c9Final.footerText = some (JVal.str "Custom footer") ∧
    parkingFooter c9Final =
      renderFooter (some (JVal.str "Custom footer")) true ∧
    renderFooter (some (JVal.str "Custom footer")) true ≠
      renderFooter (some (JVal.str "Custom footer")) false := by decide

/-- Source record of the C10 counterexample: it contains a domain property
holding the empty string. -/
def c10Source : Rec := { domain := some (JVal.str "") }

/-- Environment of the C10 counterexample: a KV binding whose exact-hostname
entry is the source record above. -/
def c10Env : Env :=
  { emptyEnv with
      kvBound := true
      kvGet := fun k => if k = "example.com" then some c10Source else none }

/-- C10 counterexample: the base record carries the source-supplied domain
(the empty string) rather than the hostname, but the final resolved domain is
the request hostname, not the source value: the falsy source value loses at
the final or-hostname step, refuting the claim that the source value becomes
the final resolved domain. -/
theorem c10_domain_counterexample :
    (getDomainConfig "example.com" c10Env).1.domain = some (JVal.str "") ∧
    (getConfig "example.com" c10Env ms20250601 none).domain ≠
      some (JVal.str "") ∧
    (getConfig "example.com" c10Env ms20250601 none).domain =
      some (JVal.str "example.com") := by decide

/-- C10 (amended): the hostname seed is spread before the source record, so a
source-supplied domain property always reaches the base record; with the
domain and domainTitle environment overrides absent and domainTitle unset, a
truthy source value becomes both the final resolved domain and the displayed
title, while a falsy source value is replaced by the hostname at the final
fallback of the resolution chain. -/
theorem c10_domain_spread_amended (hostname : String) (env : Env)
    (nowMs : Int) (r : Rec) (v : JVal) (hr : r.domain = some v)
    (h1 : env.vars (envPrefixOf hostname ++ "_DOMAIN") = none)
    (h2 : env.vars "DOMAIN" = none)
    (h3 : env.vars (envPrefixOf hostname ++ "_DOMAIN_TITLE") = none)
    (h4 : env.vars "DOMAIN_TITLE" = none)
    (ht : r.domainTitle = none) :
    (seedDomain hostname r).domain = some v ∧
    (truthy (some v) = true →
      (applyOverrides hostname env nowMs (seedDomain hostname r)).domain =
        some v ∧
      (applyOverrides hostname env nowMs (seedDomain hostname r)).domainTitle =
        some v) ∧
    (truthy (some v) = false →
      (applyOverrides hostname env nowMs (seedDomain hostname r)).domain =
        some (JVal.str hostname)) := by
  have hsd : (seedDomain hostname r).domain = some v := by
    simp [seedDomain, hr]
  have hdt : (seedDomain hostname r).domainTitle = none := by
    simp [seedDomain, ht]
  have hd : resolveDomain hostname env (seedDomain hostname r) =
      jor (some v) (some (JVal.str hostname)) := by
    rw [resolveDomain, hsd]
    simp only [envV, h1, h2, Option.map_none']
    rw [jor_none, jor_none]
  have hdtr : resolveDomainTitle hostname env (seedDomain hostname r) =
      resolveDomain hostname env (seedDomain hostname r) := by
    rw [resolveDomainTitle, hdt]
    simp only [envV, h3, h4, Option.map_none']
    rw [jor_none, jor_none, jor_none]
  refine ⟨hsd, fun htv => ⟨?_, ?_⟩, fun htv => ?_⟩
  · show resolveDomain hostname env (seedDomain hostname r) = some v
    rw [hd, jor_of_truthy _ _ htv]
  · show resolveDomainTitle hostname env (seedDomain hostname r) = some v
    rw [hdtr, hd, jor_of_truthy _ _ htv]
  · show resolveDomain hostname env (seedDomain hostname r) =
      some (JVal.str hostname)
    rw [hd, jor_of_falsy _ _ htv]

/-- Source record of the C10 witness. -/
def c10W : Rec := { domain := some (JVal.str "brand.example") }

/-- Witness for the amended C10 at a truthy source-supplied domain. -/
theorem c10_domain_spread_witness :
    (seedDomain "example.com" c10W).domain = some (JVal.str "brand.example") ∧
    (applyOverrides "example.com" emptyEnv 0
        (seedDomain "example.com" c10W)).domain =
      some (JVal.str "brand.example") ∧
    (applyOverrides "example.com" emptyEnv 0
        (seedDomain "example.com" c10W)).domainTitle =
      some (JVal.str "brand.example") := by
  have h := c10_domain_spread_amended "example.com" emptyEnv 0 c10W
    (JVal.str "brand.example") rfl rfl rfl rfl rfl rfl
  exact ⟨h.1, (h.2.1 (by decide)).1, (h.2.1 (by decide)).2⟩

end DomainParkour
